import Mathlib

/-!
Shallow embedding of the tce thermal-colorization engine (src/main.rs).

Modelling conventions:
* Rust `f32`/`f64` values are embedded as `ℚ` (exact arithmetic).  A value that
  can be NaN is embedded as `Option ℚ`, with `none` standing for NaN.
* Rust panics (`unwrap`, `expect`, `panic`) are embedded as `Except.error`.
* External collaborator crates (riscan-pro transforms, the irb raster reader,
  the palette gradient, the filesystem) are embedded as abstract data carried
  in structures, or, where a claim depends on their behaviour, modelled from
  the spec; each such definition says so in its doc comment.
-/

namespace Tce

/-- Rust float-to-`u16` `as` cast: truncation toward zero, saturating to
`[0, 65535]`; NaN (embedded as `none`) casts to `0`.  For a nonnegative value
truncation agrees with `Int.floor`, and `Int.toNat` sends every negative
truncation to `0`, so the saturating cast is `min 65535 ⌊q⌋.toNat`. -/
def floatCastU16 : Option ℚ → ℕ
  | none => 0
  | some q => min 65535 (Int.toNat ⌊q⌋)

/-- Rust `f64::trunc`: rounding toward zero. -/
def ftrunc (q : ℚ) : ℤ := if q < 0 then ⌈q⌉ else ⌊q⌋

/-- Rust float-to-`i32` `as` cast after `trunc`: saturating at the `i32` bounds. -/
def i32cast (z : ℤ) : ℤ := max (-(2 ^ 31)) (min (2 ^ 31 - 1) z)

/-- A 4×4 homogeneous transform matrix (riscan-pro's SOP/POP/COP transforms). -/
def Mat4 := Fin 4 → Fin 4 → ℚ

/-- Modelled from the spec: riscan-pro applies a rigid transform as a 4×4
homogeneous matrix acting on `(x, y, z, 1)`. -/
def applyMat4 (m : Mat4) (x y z : ℚ) : ℚ × ℚ × ℚ :=
  (m 0 0 * x + m 0 1 * y + m 0 2 * z + m 0 3,
   m 1 0 * x + m 1 1 * y + m 1 2 * z + m 1 3,
   m 2 0 * x + m 2 1 * y + m 2 2 * z + m 2 3)

/-- A point in the Scanner's Own Coordinate System. -/
structure PointSocs where
  x : ℚ
  y : ℚ
  z : ℚ

/-- A point in the CaMera's Coordinate System. -/
structure PointCmcs where
  x : ℚ
  y : ℚ
  z : ℚ

/-- A point in the PRoject's Coordinate System. -/
structure PointPrcs where
  x : ℚ
  y : ℚ
  z : ℚ

/-- A point in the GLobal Coordinate System. -/
structure PointGlcs where
  x : ℚ
  y : ℚ
  z : ℚ

/-- riscan-pro camera calibration, as used by `main.rs`: the pixel `height`
bound (used by the 90° rotation) and the pinhole projection `cmcs_to_ics`,
which may fail (point behind the camera, outside the angle masks, or outside
the image bounds).  The projection itself lives in the riscan-pro collaborator,
so it is carried here as abstract data. -/
structure CameraCalibration where
  height : ℕ
  cmcs_to_ics : PointCmcs → Option (ℚ × ℚ)

/-- riscan-pro mount calibration: the rigid transform taking a SOCS point to
CMCS, given the image's COP matrix.  Carried as abstract collaborator data. -/
structure MountCalibration where
  toCmcs : Mat4 → PointSocs → PointCmcs

/-- `Point::<Socs>::to_cmcs` from the riscan-pro collaborator. -/
def PointSocs.to_cmcs (p : PointSocs) (cop : Mat4) (mc : MountCalibration) : PointCmcs :=
  mc.toCmcs cop p

/-- `Point::<Socs>::to_prcs` from the riscan-pro collaborator: apply the scan
position's SOP matrix. -/
def PointSocs.to_prcs (p : PointSocs) (sop : Mat4) : PointPrcs :=
  let q := applyMat4 sop p.x p.y p.z
  ⟨q.1, q.2.1, q.2.2⟩

/-- `Point::<Prcs>::to_glcs` from the riscan-pro collaborator: apply the
project's POP matrix. -/
def PointPrcs.to_glcs (p : PointPrcs) (pop : Mat4) : PointGlcs :=
  let q := applyMat4 pop p.x p.y p.z
  ⟨q.1, q.2.1, q.2.2⟩

/-- The irb collaborator: a thermal raster exposing a fallible pixel lookup
returning an absolute temperature (Kelvin). -/
structure Irb where
  temperature : ℤ → ℤ → Except String ℚ

/-- A `riscan_pro::scan_position::Image`: its COP matrix and the results of
looking up its camera and mount calibrations in the project (the lookups are
performed by the riscan-pro collaborator; `none` models a failed lookup, which
`main.rs` unwraps). -/
structure Image where
  cop : Mat4
  camera_calibration : Option CameraCalibration
  mount_calibration : Option MountCalibration

/-- A scan position: its name, SOP matrix, the rxp files belonging to it
(`singlescan_rxp_paths`), and the riscan-pro logic deducing an image from a
file path. -/
structure ScanPosition where
  name : String
  sop : Mat4
  singlescan_rxp_paths : List String
  image_from_path : String → Option Image

/-- A riscan-pro project: the POP matrix and the scan positions keyed by name
(the Rust side is a `HashMap`; the association list carries no ordering
guarantee that the code may rely on). -/
structure Project where
  pop : Mat4
  scan_positions : List (String × ScanPosition)

/-- Modelled from the spec: the palette collaborator's two-stop linear
gradient, as configured by `Config::new` (domain `t0 → t1`, colors `c0 → c1`
with channels in `[0, 1]`). -/
structure Gradient where
  t0 : ℚ
  c0 : ℚ × ℚ × ℚ
  t1 : ℚ
  c1 : ℚ × ℚ × ℚ

/-- Linear interpolation of one color channel. -/
def lerp (a b f : ℚ) : ℚ := a + (b - a) * f

/-- Modelled from the spec: `palette::Gradient::get` clamps its argument to the
domain and linearly interpolates each channel between the two stops; a NaN
argument (embedded as `none`) propagates NaN through every channel (the code
comments on this path: "NAN goes to black" once the channels are cast). -/
def Gradient.get (g : Gradient) : Option ℚ → Option ℚ × Option ℚ × Option ℚ
  | none => (none, none, none)
  | some t =>
    let f : ℚ := if t ≤ g.t0 then 0 else if g.t1 ≤ t then 1 else (t - g.t0) / (g.t1 - g.t0)
    (some (lerp g.c0.1 g.c1.1 f), some (lerp g.c0.2.1 g.c1.2.1 f),
      some (lerp g.c0.2.2 g.c1.2.2 f))

/-- `las::Color`: 16-bit color channels. -/
structure Color where
  red : ℕ
  green : ℕ
  blue : ℕ
deriving DecidableEq

/-- The `Config` struct of `main.rs`. -/
structure Config where
  image_dir : String
  keep_without_thermal : Bool
  las_dir : String
  max_reflectance : ℚ
  min_reflectance : ℚ
  project : Project
  rotate : Bool
  scan_position_names : Option (List String)
  sync_to_pps : Bool
  temperature_gradient : Gradient
  use_scanpos_names : Bool

/-- The parsed command-line values consumed by `Config::new` (the clap
collaborator); the project has already been loaded from its path. -/
structure Args where
  project : Project
  image_dir : String
  las_dir : String
  min_reflectance : ℚ
  max_reflectance : ℚ
  min_temperature : ℚ
  max_temperature : ℚ
  keep_without_thermal : Bool
  rotate : Bool
  scan_position : Option (List String)
  sync_to_pps : Bool
  use_scanpos_names : Bool

/-- `Config::new` (main.rs:157-192): builds the `Config` from the parsed
command-line values.  The temperature gradient runs from blue
`(0, 0, 1)` at `min_temperature` to red `(1, 0, 0)` at `max_temperature`.
No validation of the numeric ranges is performed. -/
def Config.new (args : Args) : Config :=
  let min_temperature_color : ℚ × ℚ × ℚ := (0, 0, 1)
  let max_temperature_color : ℚ × ℚ × ℚ := (1, 0, 0)
  { image_dir := args.image_dir
    keep_without_thermal := args.keep_without_thermal
    las_dir := args.las_dir
    max_reflectance := args.max_reflectance
    min_reflectance := args.min_reflectance
    project := args.project
    rotate := args.rotate
    scan_position_names := args.scan_position
    sync_to_pps := args.sync_to_pps
    temperature_gradient :=
      { t0 := args.min_temperature, c0 := min_temperature_color
        t1 := args.max_temperature, c1 := max_temperature_color }
    use_scanpos_names := args.use_scanpos_names }

/-- `Config::to_color` (main.rs:300-309): look the temperature up in the
gradient and scale each `[0, 1]` channel by `u16::MAX`, casting to `u16`. -/
def Config.to_color (c : Config) (n : Option ℚ) : Color :=
  let color := c.temperature_gradient.get n
  { red := floatCastU16 (color.1.map fun ch => 65535 * ch)
    green := floatCastU16 (color.2.1.map fun ch => 65535 * ch)
    blue := floatCastU16 (color.2.2.map fun ch => 65535 * ch) }

/-- `Config::to_intensity` (main.rs:312-315): linear rescale of a reflectance
value to `[0, 65535]`, then the `as u16` cast.  Caution: when
`max_reflectance = min_reflectance` the Rust code divides by zero in `f32`
(giving ±∞ or NaN); the `ℚ` convention `q / 0 = 0` does not model that case,
and no theorem below evaluates this function on a zero-width range. -/
def Config.to_intensity (c : Config) (n : ℚ) : ℕ :=
  floatCastU16
    (some (65535 * (n - c.min_reflectance) / (c.max_reflectance - c.min_reflectance)))

/-- The `ImageGroup` struct of `main.rs`: everything needed to look up a
temperature for a SOCS point in one thermal image. -/
structure ImageGroup where
  camera_calibration : CameraCalibration
  image : Image
  irb : Irb
  irb_path : String
  mount_calibration : MountCalibration
  rotate : Bool

/-- `ImageGroup::temperature` (main.rs:431-454): convert the SOCS point to
CMCS, project to pixel coordinates (which may fail, yielding `none`), apply
the 90° rotation remap when the rotate flag is set, truncate the pixel
coordinates to integers, look the pixel up in the irb raster, and convert the
Kelvin value to Celsius.  A failed raster lookup is `expect`ed, i.e. a panic,
embedded as `Except.error`. -/
def ImageGroup.temperature (g : ImageGroup) (socs : PointSocs) : Except String (Option ℚ) :=
  let cmcs := socs.to_cmcs g.image.cop g.mount_calibration
  match g.camera_calibration.cmcs_to_ics cmcs with
  | none => Except.ok none
  | some (u, v) =>
    let uv := if g.rotate then ((g.camera_calibration.height : ℚ) - v, u) else (u, v)
    match g.irb.temperature (i32cast (ftrunc uv.1)) (i32cast (ftrunc uv.2)) with
    | Except.error e => Except.error ("error when retrieving temperature: " ++ e)
    | Except.ok kelvin => Except.ok (some (kelvin - 27315 / 100))

/-- The temperature aggregation step of `Config::colorize` (main.rs:244-257):
`none` (no data) when the sample list is empty, otherwise the arithmetic mean
of the samples. -/
def aggregate (temperatures : List ℚ) : Option ℚ :=
  if temperatures.isEmpty then none
  else some (temperatures.sum / (temperatures.length : ℚ))

/-- The `filter_map` collecting the per-image temperatures of one point
(main.rs:240-243); a panic inside any `ImageGroup::temperature` call aborts. -/
def temperaturesFor : List ImageGroup → PointSocs → Except String (List ℚ)
  | [], _ => Except.ok []
  | g :: gs, socs =>
    match g.temperature socs with
    | Except.error e => Except.error e
    | Except.ok t =>
      match temperaturesFor gs socs with
      | Except.error e => Except.error e
      | Except.ok rest =>
        match t with
        | some value => Except.ok (value :: rest)
        | none => Except.ok rest

/-- A raw point from the scanifc rxp stream. -/
structure RxpPoint where
  x : ℚ
  y : ℚ
  z : ℚ
  reflectance : ℚ

/-- The fields of the output `las::Point` that `main.rs` sets.  `gps_time`
holds the temperature payload; the Rust side always wraps it in `Some`, and
`none` here embeds a NaN payload (the keep-without-thermal sentinel). -/
structure LasPoint where
  x : ℚ
  y : ℚ
  z : ℚ
  intensity : ℕ
  color : Color
  gps_time : Option ℚ

/-- The las-point construction of `Config::colorize` (main.rs:258-274): GLCS
coordinates via SOP then POP, scaled intensity, gradient color, and the
temperature in the `gps_time` field. -/
def Config.makeLasPoint (c : Config) (sp : ScanPosition) (p : RxpPoint)
    (temperature : Option ℚ) : LasPoint :=
  let glcs := ((PointSocs.mk p.x p.y p.z).to_prcs sp.sop).to_glcs c.project.pop
  { x := glcs.x
    y := glcs.y
    z := glcs.z
    intensity := c.to_intensity p.reflectance
    color := c.to_color temperature
    gps_time := temperature }

/-- The per-point body of `Config::colorize` (main.rs:235-276): gather the
per-image temperatures, aggregate them, and either skip the point (`none`),
keep it with a NaN temperature, or keep it with the mean temperature. -/
def Config.colorizePoint (c : Config) (sp : ScanPosition) (groups : List ImageGroup)
    (p : RxpPoint) : Except String (Option LasPoint) :=
  match temperaturesFor groups (PointSocs.mk p.x p.y p.z) with
  | Except.error e => Except.error e
  | Except.ok temperatures =>
    match aggregate temperatures with
    | none =>
      if c.keep_without_thermal then
        Except.ok (some (c.makeLasPoint sp p none))
      else
        Except.ok none
    | some t => Except.ok (some (c.makeLasPoint sp p (some t)))

/-- The point loop of `Config::colorize`: each written point in stream order,
skipped points omitted; the first panic aborts. -/
def Config.colorizePoints (c : Config) (sp : ScanPosition) (groups : List ImageGroup) :
    List RxpPoint → Except String (List LasPoint)
  | [] => Except.ok []
  | p :: rest =>
    match c.colorizePoint sp groups p with
    | Except.error e => Except.error e
    | Except.ok written =>
      match c.colorizePoints sp groups rest with
      | Except.error e => Except.error e
      | Except.ok outs =>
        match written with
        | some q => Except.ok (q :: outs)
        | none => Except.ok outs

/-- `Option::unwrap`, embedded: a panic with the given message on `none`. -/
def unwrapOr (msg : String) : Option α → Except String α
  | none => Except.error msg
  | some a => Except.ok a

/-- `std::io::ErrorKind`, restricted to the distinction `main.rs` makes. -/
inductive IOErrorKind
  | NotFound
  | Other (msg : String)
deriving DecidableEq

/-- One entry of a directory listing. -/
structure DirEntry where
  path : String

/-- The filesystem collaborator: directory listing (`fs::read_dir`) and irb
loading (`Irb::from_path`), both fallible. -/
structure Fs where
  read_dir : String → Except IOErrorKind (List DirEntry)
  irb_from_path : String → Except String Irb

/-- Split a character list at every occurrence of a separator (the pieces do
not contain the separator; n separators yield n+1 pieces). -/
def splitOnChar (sep : Char) : List Char → List (List Char)
  | [] => [[]]
  | c :: rest =>
    match splitOnChar sep rest with
    | [] => [[]]
    | piece :: pieces =>
      if c = sep then [] :: piece :: pieces else (c :: piece) :: pieces

/-- `Path::file_name`, on the string model of paths: the component after the
last slash. -/
def pathFileName (p : String) : String :=
  ((splitOnChar '/' p.data).getLastD []).asString

/-- `Path::extension`, on the string model of paths: the part of the file name
after the last dot, `none` when there is no dot or when the only dot leads the
file name. -/
def pathExtension (p : String) : Option String :=
  match splitOnChar '.' (pathFileName p).data with
  | [] => none
  | [_] => none
  | [[], _] => none
  | parts => some ((parts.getLastD []).asString)

/-- `Path::with_extension`: replace (or append) the extension. -/
def withExtension (p : String) (ext : String) : String :=
  match pathExtension p with
  | none => p ++ "." ++ ext
  | some e => p.dropRight (e.length + 1) ++ "." ++ ext

/-- The `Translation` struct: a simple infile-to-outfile map. -/
structure Translation where
  infile : String
  outfile : String

/-- `Config::outfile` (main.rs:394-402): the output path comes from the scan
position name or from the input file name, under the las directory. -/
def Config.outfile (c : Config) (sp : ScanPosition) (infile : String) : String :=
  if c.use_scanpos_names then
    c.las_dir ++ "/" ++ withExtension sp.name "las"
  else
    c.las_dir ++ "/" ++ pathFileName (withExtension infile "las")

/-- The panic message of `Config::translations`. -/
def translationsErrorMessage (sp : ScanPosition) : String :=
  "--use-scanpos-names was provided, but there are " ++
    toString sp.singlescan_rxp_paths.length ++ " rxp files for scan position " ++ sp.name

/-- `Config::translations` (main.rs:195-218): panics when `use_scanpos_names`
is set and the scan position owns more than one rxp file, otherwise maps every
rxp path to a translation. -/
def Config.translations (c : Config) (sp : ScanPosition) : Except String (List Translation) :=
  let paths := sp.singlescan_rxp_paths
  if c.use_scanpos_names ∧ 1 < paths.length then
    Except.error (translationsErrorMessage sp)
  else
    Except.ok (paths.map fun path => { outfile := c.outfile sp path, infile := path })

/-- Strict lexicographic comparison of character lists by code point.  UTF-8
encoding preserves code-point order, so this is exactly Rust's
byte-lexicographic `Ord` on `String`. -/
def charListLt : List Char → List Char → Bool
  | _, [] => false
  | [], _ :: _ => true
  | a :: as, b :: bs => decide (a < b) || (decide (a = b) && charListLt as bs)

/-- Rust's `String` order `a ≤ b`, i.e. not `b < a`. -/
def stringLeB (a b : String) : Bool := !charListLt b.data a.data

/-- `HashMap::get` plus `unwrap` on the scan-position map (main.rs:288). -/
def lookupScanPosition (project : Project) (name : String) : Except String ScanPosition :=
  unwrapOr ("no scan position named " ++ name) (project.scan_positions.lookup name)

/-- The `map`-and-`collect` over the requested scan-position names. -/
def lookupScanPositions (project : Project) : List String → Except String (List ScanPosition)
  | [] => Except.ok []
  | name :: names =>
    match lookupScanPosition project name with
    | Except.error e => Except.error e
    | Except.ok sp =>
      match lookupScanPositions project names with
      | Except.error e => Except.error e
      | Except.ok sps => Except.ok (sp :: sps)

/-- `Config::scan_positions` (main.rs:284-297): the scan positions named on
the command line (panicking on an unknown name) or all of the project's scan
positions, stably sorted by name (`sort_by_key`). -/
def Config.scan_positions (c : Config) : Except String (List ScanPosition) :=
  match (match c.scan_position_names with
         | some names => lookupScanPositions c.project names
         | none => Except.ok (c.project.scan_positions.map Prod.snd)) with
  | Except.error e => Except.error e
  | Except.ok scan_positions =>
    Except.ok (scan_positions.mergeSort fun a b => stringLeB a.name b.name)

/-- The body of the `filter_map` in `Config::image_groups` (main.rs:351-377):
skip entries without an `irb` extension; for the rest, unwrap the image, irb,
and calibration lookups and build the `ImageGroup`. -/
def Config.buildImageGroup (c : Config) (fs : Fs) (sp : ScanPosition) (entry : DirEntry) :
    Except String (Option ImageGroup) :=
  if pathExtension entry.path = some "irb" then
    match unwrapOr "no image for path" (sp.image_from_path entry.path) with
    | Except.error e => Except.error e
    | Except.ok image =>
      match fs.irb_from_path entry.path with
      | Except.error e => Except.error e
      | Except.ok irb =>
        match unwrapOr "no camera calibration" image.camera_calibration with
        | Except.error e => Except.error e
        | Except.ok camera_calibration =>
          match unwrapOr "no mount calibration" image.mount_calibration with
          | Except.error e => Except.error e
          | Except.ok mount_calibration =>
            Except.ok (some
              { camera_calibration := camera_calibration
                image := image
                irb := irb
                irb_path := entry.path
                mount_calibration := mount_calibration
                rotate := c.rotate })
  else
    Except.ok none

/-- The `filter_map`-and-`collect` over the directory entries. -/
def Config.buildImageGroups (c : Config) (fs : Fs) (sp : ScanPosition) :
    List DirEntry → Except String (List ImageGroup)
  | [] => Except.ok []
  | entry :: rest =>
    match c.buildImageGroup fs sp entry with
    | Except.error e => Except.error e
    | Except.ok group =>
      match c.buildImageGroups fs sp rest with
      | Except.error e => Except.error e
      | Except.ok groups =>
        match group with
        | some g => Except.ok (g :: groups)
        | none => Except.ok groups

/-- `Config::image_groups` (main.rs:341-390): list `<image_dir>/<scan position
name>`; a missing directory means no images (and is not an error), any other
io error panics, and each valid entry becomes an `ImageGroup`. -/
def Config.image_groups (c : Config) (fs : Fs) (sp : ScanPosition) :
    Except String (List ImageGroup) :=
  match fs.read_dir (c.image_dir ++ "/" ++ sp.name) with
  | Except.ok entries => c.buildImageGroups fs sp entries
  | Except.error IOErrorKind.NotFound => Except.ok []
  | Except.error (IOErrorKind.Other msg) => Except.error ("io error: " ++ msg)

/-- `Config::colorize` (main.rs:221-280) on the contents of one rxp stream:
resolve the image groups once, then run every point through the per-point
pipeline. -/
def Config.colorize (c : Config) (fs : Fs) (sp : ScanPosition) (points : List RxpPoint) :
    Except String (List LasPoint) :=
  match c.image_groups fs sp with
  | Except.error e => Except.error e
  | Except.ok image_groups => c.colorizePoints sp image_groups points

/-- The per-translation loop of `main` (main.rs:93-101): open and colorize
each translation's rxp stream in turn. -/
def Config.processTranslations (c : Config) (fs : Fs) (streams : String → List RxpPoint)
    (sp : ScanPosition) : List Translation → Except String (List (String × List LasPoint))
  | [] => Except.ok []
  | t :: rest =>
    match c.colorize fs sp (streams t.infile) with
    | Except.error e => Except.error e
    | Except.ok out =>
      match c.processTranslations fs streams sp rest with
      | Except.error e => Except.error e
      | Except.ok outs => Except.ok ((t.outfile, out) :: outs)

/-- The per-scan-position body of `main` (main.rs:83-103): compute the
translations (which may panic before anything is opened), then colorize each
translation's stream.  `streams` models the rxp contents of the filesystem. -/
def Config.processScanPosition (c : Config) (fs : Fs) (streams : String → List RxpPoint)
    (sp : ScanPosition) : Except String (List (String × List LasPoint)) :=
  match c.translations sp with
  | Except.error e => Except.error e
  | Except.ok translations => c.processTranslations fs streams sp translations

/-! ## Concrete fixtures for witnesses and counterexamples -/

/-- A zero matrix standing in for the rigid transforms in concrete test data. -/
def mat0 : Mat4 := fun _ _ => 0

/-- A minimal project fixture. -/
def testProject : Project := { pop := mat0, scan_positions := [] }

/-- A baseline argument fixture for concrete evaluations: reflectance range
`[0, 65535]`, temperature range `[0, 10]`, all flags off. -/
def testArgs : Args :=
  { project := testProject
    image_dir := "images"
    las_dir := "las"
    min_reflectance := 0
    max_reflectance := 65535
    min_temperature := 0
    max_temperature := 10
    keep_without_thermal := false
    rotate := false
    scan_position := none
    sync_to_pps := false
    use_scanpos_names := false }

/-- A mount calibration fixture: the identity transform. -/
def testMount : MountCalibration := ⟨fun _ p => ⟨p.x, p.y, p.z⟩⟩

/-- An image fixture (its project-level calibration lookups are unused by the
fixtures below, which carry their own calibrations). -/
def testImage : Image := { cop := mat0, camera_calibration := none, mount_calibration := none }

/-- A camera fixture whose projection always lands on pixel (5.5, 7.5). -/
def testCamera : CameraCalibration := ⟨100, fun _ => some (5 + 1 / 2, 7 + 1 / 2)⟩

/-- A raster fixture that always reads 300 Kelvin. -/
def testIrbConstant : Irb := ⟨fun _ _ => Except.ok 300⟩

/-- A raster fixture whose every lookup fails. -/
def testIrbFailing : Irb := ⟨fun _ _ => Except.error "pixel out of bounds"⟩

/-- An image-group fixture around `testCamera` and `testIrbConstant`. -/
def testGroup : ImageGroup :=
  { camera_calibration := testCamera
    image := testImage
    irb := testIrbConstant
    irb_path := "images/sp1/a.irb"
    mount_calibration := testMount
    rotate := false }

/-- The image-group fixture with the failing raster. -/
def testGroupFailing : ImageGroup := { testGroup with irb := testIrbFailing }

/-- A scan-position fixture owning two rxp files. -/
def testScanPosTwoScans : ScanPosition :=
  { name := "sp1"
    sop := mat0
    singlescan_rxp_paths := ["scans/a.rxp", "scans/b.rxp"]
    image_from_path := fun _ => none }

/-! ## Helper lemmas -/

/-- Below the first stop the gradient yields the first color exactly. -/
theorem Gradient.get_le_t0 (g : Gradient) (t : ℚ) (ht : t ≤ g.t0) :
    g.get (some t) = (some g.c0.1, some g.c0.2.1, some g.c0.2.2) := by
  simp [Gradient.get, ht, lerp]

/-- At or above the second stop the gradient yields the second color exactly. -/
theorem Gradient.get_ge_t1 (g : Gradient) (t : ℚ) (h0 : g.t0 < t) (h1 : g.t1 ≤ t) :
    g.get (some t) = (some g.c1.1, some g.c1.2.1, some g.c1.2.2) := by
  simp only [Gradient.get]
  rw [if_neg (not_le.mpr h0), if_pos h1]
  simp only [lerp, Prod.mk.injEq, Option.some.injEq]
  refine ⟨by ring, by ring, by ring⟩

/-- At the midpoint of the domain the gradient averages the two stops. -/
theorem Gradient.get_mid (g : Gradient) (hlt : g.t0 < g.t1) :
    g.get (some ((g.t0 + g.t1) / 2)) =
      (some ((g.c0.1 + g.c1.1) / 2), some ((g.c0.2.1 + g.c1.2.1) / 2),
        some ((g.c0.2.2 + g.c1.2.2) / 2)) := by
  have h0 : ¬((g.t0 + g.t1) / 2 ≤ g.t0) := by push_neg; linarith
  have h1 : ¬(g.t1 ≤ (g.t0 + g.t1) / 2) := by push_neg; linarith
  have hz : g.t1 - g.t0 ≠ 0 := by intro hc; linarith [sub_eq_zero.mp hc]
  have hf : ((g.t0 + g.t1) / 2 - g.t0) / (g.t1 - g.t0) = 1 / 2 := by
    field_simp
    ring
  simp only [Gradient.get]
  rw [if_neg h0, if_neg h1, hf]
  simp only [lerp, Prod.mk.injEq, Option.some.injEq]
  refine ⟨by ring, by ring, by ring⟩

/-- The per-file point loop never emits more points than it reads. -/
theorem colorizePoints_length_le (c : Config) (sp : ScanPosition) (groups : List ImageGroup) :
    ∀ (points : List RxpPoint) (outs : List LasPoint),
      c.colorizePoints sp groups points = Except.ok outs → outs.length ≤ points.length := by
  intro points
  induction points with
  | nil =>
    intro outs h
    simp only [Config.colorizePoints] at h
    cases h
    simp
  | cons p rest ih =>
    intro outs h
    simp only [Config.colorizePoints] at h
    cases hcp : c.colorizePoint sp groups p with
    | error e => rw [hcp] at h; cases h
    | ok written =>
      rw [hcp] at h
      cases hcr : c.colorizePoints sp groups rest with
      | error e => rw [hcr] at h; cases h
      | ok outs2 =>
        rw [hcr] at h
        cases written with
        | some q =>
          cases h
          simpa using Nat.succ_le_succ (ih _ hcr)
        | none =>
          cases h
          exact (ih _ hcr).trans (Nat.le_succ _)

/-- With no image groups, a point is either dropped or kept with the no-data
sentinel, according to the keep-without-thermal flag. -/
theorem colorizePoint_no_groups (c : Config) (sp : ScanPosition) (p : RxpPoint) :
    c.colorizePoint sp [] p =
      (if c.keep_without_thermal then Except.ok (some (c.makeLasPoint sp p none))
       else Except.ok none) := rfl

/-- With no image groups, the point loop keeps every point with the no-data
sentinel or drops them all, according to the keep-without-thermal flag. -/
theorem colorizePoints_no_groups (c : Config) (sp : ScanPosition) :
    ∀ points : List RxpPoint,
      c.colorizePoints sp [] points =
        Except.ok (if c.keep_without_thermal then
          points.map fun p => c.makeLasPoint sp p none
        else []) := by
  intro points
  induction points with
  | nil => cases hk : c.keep_without_thermal <;> simp [Config.colorizePoints, hk]
  | cons p rest ih =>
    cases hk : c.keep_without_thermal <;>
      simp [Config.colorizePoints, colorizePoint_no_groups, hk, ih]

/-- A filesystem fixture whose every directory listing reports NotFound. -/
def testFsMissing : Fs :=
  { read_dir := fun _ => Except.error IOErrorKind.NotFound
    irb_from_path := fun _ => Except.error "no irb" }

/-- A filesystem fixture whose every directory listing reports a non-NotFound
io error. -/
def testFsBroken : Fs :=
  { read_dir := fun _ => Except.error (IOErrorKind.Other "permission denied")
    irb_from_path := fun _ => Except.error "no irb" }

/-- Scan-position fixtures with single-letter names, and two projects holding
them in opposite stored orders. -/
def spA : ScanPosition := ⟨"a", mat0, [], fun _ => none⟩

/-- The second single-letter scan-position fixture. -/
def spB : ScanPosition := ⟨"b", mat0, [], fun _ => none⟩

/-- A project storing the fixture positions as b then a. -/
def testProjectBA : Project := { pop := mat0, scan_positions := [("b", spB), ("a", spA)] }

/-- A project storing the fixture positions as a then b. -/
def testProjectAB : Project := { pop := mat0, scan_positions := [("a", spA), ("b", spB)] }

/-- The configuration over the b-then-a project. -/
def testConfigBA : Config := Config.new { testArgs with project := testProjectBA }

/-- The configuration over the a-then-b project. -/
def testConfigAB : Config := Config.new { testArgs with project := testProjectAB }

/-! ## Order lemmas for the scan-position sort -/

/-- Strict lexicographic comparison is transitive. -/
theorem charListLt_trans : ∀ as bs cs : List Char, charListLt as bs = true →
    charListLt bs cs = true → charListLt as cs = true := by
  intro as
  induction as with
  | nil =>
    intro bs cs h1 h2
    cases bs with
    | nil => simp [charListLt] at h1
    | cons b bs =>
      cases cs with
      | nil => simp [charListLt] at h2
      | cons c cs => simp [charListLt]
  | cons a as ih =>
    intro bs cs h1 h2
    cases bs with
    | nil => simp [charListLt] at h1
    | cons b bs =>
      cases cs with
      | nil => simp [charListLt] at h2
      | cons c cs =>
        simp only [charListLt, Bool.or_eq_true, Bool.and_eq_true,
          decide_eq_true_eq] at h1 h2 ⊢
        rcases h1 with h1 | ⟨e1, r1⟩ <;> rcases h2 with h2 | ⟨e2, r2⟩
        · exact Or.inl (h1.trans h2)
        · exact Or.inl (e2 ▸ h1)
        · exact Or.inl (e1 ▸ h2)
        · exact Or.inr ⟨e1.trans e2, ih bs cs r1 r2⟩

/-- Strict lexicographic comparison is asymmetric. -/
theorem charListLt_asymm : ∀ as bs : List Char, charListLt as bs = true →
    charListLt bs as = true → False := by
  intro as
  induction as with
  | nil =>
    intro bs h1 h2
    cases bs with
    | nil => simp [charListLt] at h1
    | cons b bs => simp [charListLt] at h2
  | cons a as ih =>
    intro bs h1 h2
    cases bs with
    | nil => simp [charListLt] at h1
    | cons b bs =>
      simp only [charListLt, Bool.or_eq_true, Bool.and_eq_true,
        decide_eq_true_eq] at h1 h2
      rcases h1 with h1 | ⟨e1, r1⟩ <;> rcases h2 with h2 | ⟨e2, r2⟩
      · exact absurd h2 (lt_asymm h1)
      · subst e2; exact absurd h1 (lt_irrefl _)
      · subst e1; exact absurd h2 (lt_irrefl _)
      · exact ih bs r1 r2

/-- Strict lexicographic comparison is trichotomous. -/
theorem charListLt_trichotomy : ∀ as bs : List Char,
    charListLt as bs = true ∨ as = bs ∨ charListLt bs as = true := by
  intro as
  induction as with
  | nil =>
    intro bs
    cases bs with
    | nil => exact Or.inr (Or.inl rfl)
    | cons b bs => exact Or.inl (by simp [charListLt])
  | cons a as ih =>
    intro bs
    cases bs with
    | nil => exact Or.inr (Or.inr (by simp [charListLt]))
    | cons b bs =>
      rcases lt_trichotomy a b with hab | hab | hab
      · exact Or.inl (by simp [charListLt, hab])
      · subst hab
        rcases ih bs with h | h | h
        · exact Or.inl (by simp [charListLt, h])
        · exact Or.inr (Or.inl (by rw [h]))
        · exact Or.inr (Or.inr (by simp [charListLt, h]))
      · exact Or.inr (Or.inr (by simp [charListLt, hab]))

/-- The string order is transitive. -/
theorem stringLeB_trans (a b c : String) (h1 : stringLeB a b = true)
    (h2 : stringLeB b c = true) : stringLeB a c = true := by
  simp only [stringLeB, Bool.not_eq_true'] at h1 h2 ⊢
  by_contra hca
  rw [Bool.not_eq_false] at hca
  rcases charListLt_trichotomy c.data b.data with h | h | h
  · rw [h] at h2; cases h2
  · rw [← h] at h1; rw [hca] at h1; cases h1
  · have := charListLt_trans b.data c.data a.data h hca
    rw [this] at h1; cases h1

/-- The string order is total. -/
theorem stringLeB_total (a b : String) : stringLeB a b || stringLeB b a := by
  simp only [stringLeB, Bool.or_eq_true, Bool.not_eq_true']
  cases hlt : charListLt b.data a.data with
  | false => exact Or.inl rfl
  | true =>
    cases hlt2 : charListLt a.data b.data with
    | false => exact Or.inr rfl
    | true => exact (charListLt_asymm _ _ hlt2 hlt).elim

/-- The string order is antisymmetric. -/
theorem stringLeB_antisymm (a b : String) (h1 : stringLeB a b = true)
    (h2 : stringLeB b a = true) : a = b := by
  simp only [stringLeB, Bool.not_eq_true'] at h1 h2
  rcases charListLt_trichotomy a.data b.data with h | h | h
  · rw [h] at h2; cases h2
  · cases a; cases b; exact congrArg String.mk (by simpa using h)
  · rw [h] at h1; cases h1

/-- Anything `Config::scan_positions` returns is the merge sort of some list
by name, and, when no names were requested, of exactly the project's stored
scan positions. -/
theorem scan_positions_ok_shape (c : Config) (out : List ScanPosition)
    (h : c.scan_positions = Except.ok out) :
    ∃ sps : List ScanPosition,
      out = sps.mergeSort (fun a b => stringLeB a.name b.name) ∧
      (c.scan_position_names = none → sps = c.project.scan_positions.map Prod.snd) := by
  unfold Config.scan_positions at h
  cases hn : c.scan_position_names with
  | none =>
    rw [hn] at h
    simp only [Except.ok.injEq] at h
    exact ⟨c.project.scan_positions.map Prod.snd, h.symm, fun _ => rfl⟩
  | some names =>
    rw [hn] at h
    dsimp only at h
    cases hl : lookupScanPositions c.project names with
    | error e => rw [hl] at h; simp at h
    | ok sps =>
      rw [hl] at h
      simp only [Except.ok.injEq] at h
      exact ⟨sps, h.symm, fun hcontra => nomatch hcontra⟩

/-- The merge sort by name produces a list pairwise ordered by name. -/
theorem mergeSort_by_name_pairwise (sps : List ScanPosition) :
    (sps.mergeSort fun a b => stringLeB a.name b.name).Pairwise
      (fun a b => stringLeB a.name b.name = true) :=
  List.sorted_mergeSort
    (fun a b c h1 h2 => stringLeB_trans a.name b.name c.name h1 h2)
    (fun a b => stringLeB_total a.name b.name)
    sps

/-- Claim C1: `ImageGroup::temperature` projects the SOCS point through the
scanner-to-camera-mount transform and then through the camera projection; a
failed projection yields no sample; on success, when the rotate flag is set
the pixel coordinates are remapped by u-prime = height − v, v-prime = u, both
coordinates are truncated to integers, the raster is looked up there, and the
Kelvin value is returned minus 273.15. -/
theorem C1_sample_temperature (g : ImageGroup) (socs : PointSocs) :
    (g.camera_calibration.cmcs_to_ics (socs.to_cmcs g.image.cop g.mount_calibration) = none →
      g.temperature socs = Except.ok none) ∧
    (∀ u v kelvin,
      g.camera_calibration.cmcs_to_ics (socs.to_cmcs g.image.cop g.mount_calibration) =
        some (u, v) →
      g.rotate = true →
      g.irb.temperature (i32cast (ftrunc ((g.camera_calibration.height : ℚ) - v)))
        (i32cast (ftrunc u)) = Except.ok kelvin →
      g.temperature socs = Except.ok (some (kelvin - 27315 / 100))) ∧
    (∀ u v kelvin,
      g.camera_calibration.cmcs_to_ics (socs.to_cmcs g.image.cop g.mount_calibration) =
        some (u, v) →
      g.rotate = false →
      g.irb.temperature (i32cast (ftrunc u)) (i32cast (ftrunc v)) = Except.ok kelvin →
      g.temperature socs = Except.ok (some (kelvin - 27315 / 100))) := by
  refine ⟨fun h => ?_, fun u v kelvin hp hr hl => ?_, fun u v kelvin hp hr hl => ?_⟩
  · simp [ImageGroup.temperature, h]
  · simp [ImageGroup.temperature, hp, hr, hl]
  · simp [ImageGroup.temperature, hp, hr, hl]

/-- Claim C1 witness: the fixture group with rotate off samples pixel
(5.5, 7.5) of the 300-Kelvin raster and reports 300 − 273.15 degrees. -/
theorem C1_sample_temperature_witness :
    testGroup.temperature ⟨0, 0, 0⟩ = Except.ok (some (300 - 27315 / 100)) :=
  (C1_sample_temperature testGroup ⟨0, 0, 0⟩).2.2 (5 + 1 / 2) (7 + 1 / 2) 300 rfl rfl rfl

/-- Claim C6: when the camera projection succeeds but the raster pixel lookup
fails, `ImageGroup::temperature` panics with the expect message — the failure
is fatal for the run and is never converted into a no-data outcome. -/
theorem C6_lookup_failure_fatal (g : ImageGroup) (socs : PointSocs) (u v : ℚ) (e : String)
    (hp : g.camera_calibration.cmcs_to_ics (socs.to_cmcs g.image.cop g.mount_calibration) =
      some (u, v))
    (hl : g.irb.temperature
      (i32cast (ftrunc (if g.rotate then (g.camera_calibration.height : ℚ) - v else u)))
      (i32cast (ftrunc (if g.rotate then u else v))) = Except.error e) :
    g.temperature socs = Except.error ("error when retrieving temperature: " ++ e) ∧
    ∀ result, g.temperature socs ≠ Except.ok result := by
  have herr : g.temperature socs =
      Except.error ("error when retrieving temperature: " ++ e) := by
    cases hr : g.rotate
    · rw [hr] at hl
      simp only [Bool.false_eq_true, if_false] at hl
      simp [ImageGroup.temperature, hp, hr, hl]
    · rw [hr] at hl
      simp only [if_true] at hl
      simp [ImageGroup.temperature, hp, hr, hl]
  exact ⟨herr, fun result hok => by rw [herr] at hok; exact Except.noConfusion hok⟩

/-- Claim C6 witness: the fixture group whose raster lookup fails panics with
the expect message. -/
theorem C6_lookup_failure_fatal_witness :
    testGroupFailing.temperature ⟨0, 0, 0⟩ =
      Except.error ("error when retrieving temperature: " ++ "pixel out of bounds") :=
  (C6_lookup_failure_fatal testGroupFailing ⟨0, 0, 0⟩ (5 + 1 / 2) (7 + 1 / 2)
    "pixel out of bounds" rfl rfl).1

/-- Claim C7: with `use_scanpos_names` set and more than one rxp file in the
scan position, `Config::translations` panics with the configuration error,
and the whole per-scan-position run fails with that same error for every
filesystem and every stream content — no file is consulted first. -/
theorem C7_scanpos_names_fail_fast (c : Config) (sp : ScanPosition)
    (h1 : c.use_scanpos_names = true) (h2 : 1 < sp.singlescan_rxp_paths.length) :
    c.translations sp = Except.error (translationsErrorMessage sp) ∧
    ∀ (fs : Fs) (streams : String → List RxpPoint),
      c.processScanPosition fs streams sp = Except.error (translationsErrorMessage sp) := by
  have ht : c.translations sp = Except.error (translationsErrorMessage sp) := by
    simp [Config.translations, h1, h2]
  exact ⟨ht, fun fs streams => by simp [Config.processScanPosition, ht]⟩

/-- Claim C7 witness: a configuration with `use_scanpos_names` on and a scan
position with two rxp files fails with the configuration error. -/
theorem C7_scanpos_names_fail_fast_witness :
    (Config.new { testArgs with use_scanpos_names := true }).translations testScanPosTwoScans =
      Except.error (translationsErrorMessage testScanPosTwoScans) :=
  (C7_scanpos_names_fail_fast (Config.new { testArgs with use_scanpos_names := true })
    testScanPosTwoScans rfl (by decide)).1

/-- Claim C2: aggregation of the per-image samples yields no data exactly on
the empty sample list, otherwise the arithmetic mean of all samples, and any
permutation of a fixed multiset of samples aggregates to the identical mean. -/
theorem C2_aggregate_mean :
    aggregate [] = none ∧
    (∀ l : List ℚ, l ≠ [] → aggregate l = some (l.sum / (l.length : ℚ))) ∧
    (∀ l l' : List ℚ, l.Perm l' → aggregate l = aggregate l') := by
  refine ⟨rfl, fun l hl => ?_, fun l l' h => ?_⟩
  · simp [aggregate, hl]
  · unfold aggregate
    rw [h.sum_eq, h.length_eq]
    have he : l.isEmpty = l'.isEmpty := by
      cases l with
      | nil => cases l' with
        | nil => rfl
        | cons b bs => exact absurd h.length_eq (by simp)
      | cons a as => cases l' with
        | nil => exact absurd h.length_eq (by simp)
        | cons b bs => rfl
    rw [he]

/-- Claim C2 witness: the mean of two concrete samples and invariance under a
concrete transposition. -/
theorem C2_aggregate_mean_witness :
    aggregate [10, 20] = some (([10, 20] : List ℚ).sum / (([10, 20] : List ℚ).length : ℚ)) ∧
    aggregate [10, 20] = aggregate [20, 10] :=
  ⟨C2_aggregate_mean.2.1 [10, 20] (by decide),
   C2_aggregate_mean.2.2 [10, 20] [20, 10] (List.Perm.swap 20 10 [])⟩

/-- Claim C3 counterexample: with reflectance range `[0, 65535]` the rescale
of reflectance 3/5 is 3/5, whose claimed rounding is 1, but the code truncates
it to 0; and reflectance 131070 rescales to 131070, which the saturating cast
clamps to 65535 instead of letting it overflow the 16-bit representation. -/
theorem C3_intensity_counterexample :
    (Config.new testArgs).to_intensity (3 / 5) = 0 ∧
    round ((65535 : ℚ) * (3 / 5 - (Config.new testArgs).min_reflectance) /
      ((Config.new testArgs).max_reflectance - (Config.new testArgs).min_reflectance)) = 1 ∧
    (Config.new testArgs).to_intensity 131070 = 65535 := by
  refine ⟨?_, ?_, ?_⟩ <;>
    norm_num [Config.new, testArgs, Config.to_intensity, floatCastU16, round_eq]

/-- Claim C3 amended: the intensity mapping computes
`65535 * (v - min_reflectance) / (max_reflectance - min_reflectance)` and
converts it with Rust's saturating float-to-integer cast (truncation toward
zero, clamped into `[0, 65535]`) rather than rounding; `v = min_reflectance`
gives intensity 0 and, for a nonzero range, `v = max_reflectance` gives
65535. -/
theorem C3_intensity_rescale (c : Config)
    (h : c.max_reflectance ≠ c.min_reflectance) :
    (∀ v : ℚ, c.to_intensity v =
      min 65535 (Int.toNat ⌊(65535 : ℚ) * (v - c.min_reflectance) /
        (c.max_reflectance - c.min_reflectance)⌋)) ∧
    c.to_intensity c.min_reflectance = 0 ∧
    c.to_intensity c.max_reflectance = 65535 := by
  have hz : c.max_reflectance - c.min_reflectance ≠ 0 := sub_ne_zero.mpr h
  refine ⟨fun v => rfl, ?_, ?_⟩
  · simp [Config.to_intensity, floatCastU16]
  · simp [Config.to_intensity, floatCastU16, mul_div_assoc, div_self hz]

/-- Claim C3 amended witness: the endpoint intensities on the concrete
configuration. -/
theorem C3_intensity_rescale_witness :
    (Config.new testArgs).to_intensity (Config.new testArgs).min_reflectance = 0 ∧
    (Config.new testArgs).to_intensity (Config.new testArgs).max_reflectance = 65535 :=
  ⟨(C3_intensity_rescale (Config.new testArgs) (by norm_num [Config.new, testArgs])).2.1,
   (C3_intensity_rescale (Config.new testArgs) (by norm_num [Config.new, testArgs])).2.2⟩

/-- An argument fixture whose reflectance range has zero width. -/
def testArgsEqualRange : Args := { testArgs with min_reflectance := 5, max_reflectance := 5 }

/-- Claim C8 counterexample: `Config::new` completes on a zero-width
reflectance range, returning a configuration whose bounds are equal — no
configuration error is raised at startup. -/
theorem C8_no_range_check_counterexample :
    (Config.new testArgsEqualRange).min_reflectance = 5 ∧
    (Config.new testArgsEqualRange).max_reflectance = 5 :=
  ⟨rfl, rfl⟩

/-- Claim C4 counterexample: at a temperature below the configured minimum the
code returns the 16-bit blue endpoint (0, 0, 65535), not the claimed 8-bit
(0, 0, 255). -/
theorem C4_to_color_counterexample :
    (Config.new testArgs).to_color (some (-5)) = ⟨0, 0, 65535⟩ ∧
    (⟨0, 0, 65535⟩ : Color) ≠ ⟨0, 0, 255⟩ := by
  constructor
  · have hgrad : (Config.new testArgs).temperature_gradient =
        ⟨0, (0, 0, 1), 10, (1, 0, 0)⟩ := rfl
    have hget : (⟨0, (0, 0, 1), 10, (1, 0, 0)⟩ : Gradient).get (some (-5)) =
        (some 0, some 0, some 1) :=
      Gradient.get_le_t0 _ (-5) (by norm_num : (-5 : ℚ) ≤ (0 : ℚ))
    simp only [Config.to_color, hgrad, hget]
    norm_num [floatCastU16]
  · decide

/-- Claim C4 amended: the two-stop gradient built by `Config::new` maps every
temperature at or below the minimum to 16-bit blue (0, 0, 65535), every
temperature at or above the maximum to 16-bit red (65535, 0, 0), the exact
midpoint to (32767, 0, 32767) — the truncation of 65535/2 — and a NaN
temperature to black (0, 0, 0). -/
theorem C4_to_color_gradient (args : Args)
    (h : args.min_temperature < args.max_temperature) :
    (∀ t : ℚ, t ≤ args.min_temperature →
      (Config.new args).to_color (some t) = ⟨0, 0, 65535⟩) ∧
    (∀ t : ℚ, args.max_temperature ≤ t →
      (Config.new args).to_color (some t) = ⟨65535, 0, 0⟩) ∧
    (Config.new args).to_color
      (some ((args.min_temperature + args.max_temperature) / 2)) = ⟨32767, 0, 32767⟩ ∧
    (Config.new args).to_color none = ⟨0, 0, 0⟩ := by
  have hgrad : (Config.new args).temperature_gradient =
      ⟨args.min_temperature, (0, 0, 1), args.max_temperature, (1, 0, 0)⟩ := rfl
  refine ⟨fun t ht => ?_, fun t ht => ?_, ?_, rfl⟩
  · have hget : (⟨args.min_temperature, (0, 0, 1), args.max_temperature, (1, 0, 0)⟩ :
        Gradient).get (some t) = (some 0, some 0, some 1) :=
      Gradient.get_le_t0 _ t ht
    simp only [Config.to_color, hgrad, hget]
    norm_num [floatCastU16]
  · have hget : (⟨args.min_temperature, (0, 0, 1), args.max_temperature, (1, 0, 0)⟩ :
        Gradient).get (some t) = (some 1, some 0, some 0) :=
      Gradient.get_ge_t1 _ t (lt_of_lt_of_le h ht) ht
    simp only [Config.to_color, hgrad, hget]
    norm_num [floatCastU16]
  · have hget : (⟨args.min_temperature, (0, 0, 1), args.max_temperature, (1, 0, 0)⟩ :
        Gradient).get (some ((args.min_temperature + args.max_temperature) / 2)) =
        (some ((0 + 1) / 2), some ((0 + 0) / 2), some ((1 + 0) / 2)) :=
      Gradient.get_mid _ h
    simp only [Config.to_color, hgrad, hget]
    norm_num [floatCastU16]
    decide

/-- Claim C4 amended witness: the endpoint, midpoint, and NaN colors on the
concrete configuration with temperature range [0, 10]. -/
theorem C4_to_color_gradient_witness :
    (Config.new testArgs).to_color (some (-1)) = ⟨0, 0, 65535⟩ ∧
    (Config.new testArgs).to_color (some 11) = ⟨65535, 0, 0⟩ ∧
    (Config.new testArgs).to_color
      (some ((testArgs.min_temperature + testArgs.max_temperature) / 2)) = ⟨32767, 0, 32767⟩ ∧
    (Config.new testArgs).to_color none = ⟨0, 0, 0⟩ :=
  ⟨(C4_to_color_gradient testArgs (by norm_num [testArgs])).1 (-1) (by norm_num [testArgs]),
   (C4_to_color_gradient testArgs (by norm_num [testArgs])).2.1 11 (by norm_num [testArgs]),
   (C4_to_color_gradient testArgs (by norm_num [testArgs])).2.2.1,
   (C4_to_color_gradient testArgs (by norm_num [testArgs])).2.2.2⟩

/-- Claim C5: a point whose aggregation comes up empty is skipped entirely
when keep-without-thermal is off, and otherwise written with the NaN
temperature sentinel and a black color; and the number of points written never
exceeds the number of points read. -/
theorem C5_no_thermal_policy (c : Config) (sp : ScanPosition) (groups : List ImageGroup) :
    (∀ p : RxpPoint,
      temperaturesFor groups (PointSocs.mk p.x p.y p.z) = Except.ok [] →
      (c.keep_without_thermal = false → c.colorizePoint sp groups p = Except.ok none) ∧
      (c.keep_without_thermal = true →
        ∃ q, c.colorizePoint sp groups p = Except.ok (some q) ∧
          q.gps_time = none ∧ q.color = ⟨0, 0, 0⟩)) ∧
    (∀ (points : List RxpPoint) (outs : List LasPoint),
      c.colorizePoints sp groups points = Except.ok outs → outs.length ≤ points.length) := by
  refine ⟨fun p hp => ⟨fun hk => ?_, fun hk => ?_⟩, colorizePoints_length_le c sp groups⟩
  · simp [Config.colorizePoint, hp, aggregate, hk]
  · refine ⟨c.makeLasPoint sp p none, ?_, rfl, rfl⟩
    simp [Config.colorizePoint, hp, aggregate, hk]

/-- Claim C5 witness: with no image groups, the skip and keep policies on a
concrete point, and the output count of a one-point stream. -/
theorem C5_no_thermal_policy_witness :
    (Config.new testArgs).colorizePoint testScanPosTwoScans [] ⟨0, 0, 0, 0⟩ = Except.ok none ∧
    (∃ q, (Config.new { testArgs with keep_without_thermal := true }).colorizePoint
        testScanPosTwoScans [] ⟨0, 0, 0, 0⟩ = Except.ok (some q) ∧
        q.gps_time = none ∧ q.color = ⟨0, 0, 0⟩) ∧
    ([] : List LasPoint).length ≤ [(⟨0, 0, 0, 0⟩ : RxpPoint)].length :=
  ⟨((C5_no_thermal_policy (Config.new testArgs) testScanPosTwoScans []).1
      ⟨0, 0, 0, 0⟩ rfl).1 rfl,
   ((C5_no_thermal_policy (Config.new { testArgs with keep_without_thermal := true })
      testScanPosTwoScans []).1 ⟨0, 0, 0, 0⟩ rfl).2 rfl,
   (C5_no_thermal_policy (Config.new testArgs) testScanPosTwoScans []).2
      [⟨0, 0, 0, 0⟩] [] rfl⟩

/-- Claim C8 amended: `Config::new` performs no validation of the reflectance
range — the configured bounds are passed through unchanged, so a zero-width
range reaches the per-point division inside `to_intensity` instead of being
rejected at startup. -/
theorem C8_no_range_check (args : Args) :
    (Config.new args).min_reflectance = args.min_reflectance ∧
    (Config.new args).max_reflectance = args.max_reflectance :=
  ⟨rfl, rfl⟩

/-- Claim C9: every successful scan-position selection comes out sorted in the
byte-lexicographic order of the names; when no names are requested it is a
permutation of all of the project's stored positions; and permuting the stored
positions never changes the processed name order. -/
theorem C9_scan_positions_sorted :
    (∀ (c : Config) (out : List ScanPosition), c.scan_positions = Except.ok out →
      out.Pairwise fun a b => stringLeB a.name b.name = true) ∧
    (∀ (c : Config) (out : List ScanPosition), c.scan_position_names = none →
      c.scan_positions = Except.ok out →
      out.Perm (c.project.scan_positions.map Prod.snd)) ∧
    (∀ (c₁ c₂ : Config) (out₁ out₂ : List ScanPosition),
      c₁.scan_position_names = none → c₂.scan_position_names = none →
      (c₁.project.scan_positions.map Prod.snd).Perm
        (c₂.project.scan_positions.map Prod.snd) →
      c₁.scan_positions = Except.ok out₁ → c₂.scan_positions = Except.ok out₂ →
      out₁.map ScanPosition.name = out₂.map ScanPosition.name) := by
  have hsorted : ∀ (c : Config) (out : List ScanPosition), c.scan_positions = Except.ok out →
      out.Pairwise fun a b => stringLeB a.name b.name = true := by
    intro c out h
    obtain ⟨sps, rfl, -⟩ := scan_positions_ok_shape c out h
    exact mergeSort_by_name_pairwise sps
  have hperm : ∀ (c : Config) (out : List ScanPosition), c.scan_position_names = none →
      c.scan_positions = Except.ok out →
      out.Perm (c.project.scan_positions.map Prod.snd) := by
    intro c out hn h
    obtain ⟨sps, rfl, hnone⟩ := scan_positions_ok_shape c out h
    rw [hnone hn]
    exact List.mergeSort_perm _ _
  refine ⟨hsorted, hperm, fun c₁ c₂ out₁ out₂ hn₁ hn₂ hpp h₁ h₂ => ?_⟩
  haveI : IsAntisymm String fun x y => stringLeB x y = true := ⟨stringLeB_antisymm⟩
  have hp : (out₁.map ScanPosition.name).Perm (out₂.map ScanPosition.name) :=
    (((hperm c₁ out₁ hn₁ h₁).trans hpp).trans (hperm c₂ out₂ hn₂ h₂).symm).map _
  have hs₁ : (out₁.map ScanPosition.name).Pairwise fun x y => stringLeB x y = true :=
    (hsorted c₁ out₁ h₁).map _ fun a b hab => hab
  have hs₂ : (out₂.map ScanPosition.name).Pairwise fun x y => stringLeB x y = true :=
    (hsorted c₂ out₂ h₂).map _ fun a b hab => hab
  exact List.eq_of_perm_of_sorted hp hs₁ hs₂

unseal List.merge List.mergeSort in
/-- Claim C9 witness: the project stored as b-then-a is processed in the name
order of the project stored as a-then-b, the selection [a, b] is pairwise
ordered, and it is a permutation of the stored positions. -/
theorem C9_scan_positions_sorted_witness :
    [spA, spB].map ScanPosition.name = [spA, spB].map ScanPosition.name ∧
    ([spA, spB] : List ScanPosition).Pairwise
      (fun a b => stringLeB a.name b.name = true) ∧
    ([spA, spB] : List ScanPosition).Perm
      (testProjectBA.scan_positions.map Prod.snd) :=
  ⟨C9_scan_positions_sorted.2.2 testConfigBA testConfigAB [spA, spB] [spA, spB]
      rfl rfl (List.Perm.swap spA spB []) rfl rfl,
   C9_scan_positions_sorted.1 testConfigBA [spA, spB] rfl,
   C9_scan_positions_sorted.2.1 testConfigBA [spA, spB] rfl rfl⟩

/-- Claim C10: when the per-scan-position image directory is missing
(NotFound), the scan position is processed with an empty image-group set and
every point takes the no-thermal-data path — kept with the NaN sentinel or
dropped according to the keep-without-thermal flag — while any other io error
from the directory listing panics. -/
theorem C10_missing_image_dir (c : Config) (fs : Fs) (sp : ScanPosition) :
    (fs.read_dir (c.image_dir ++ "/" ++ sp.name) = Except.error IOErrorKind.NotFound →
      c.image_groups fs sp = Except.ok [] ∧
      ∀ points : List RxpPoint,
        c.colorize fs sp points =
          Except.ok (if c.keep_without_thermal then
            points.map fun p => c.makeLasPoint sp p none
          else [])) ∧
    (∀ msg,
      fs.read_dir (c.image_dir ++ "/" ++ sp.name) = Except.error (IOErrorKind.Other msg) →
      c.image_groups fs sp = Except.error ("io error: " ++ msg)) := by
  refine ⟨fun h => ?_, fun msg h => ?_⟩
  · have hig : c.image_groups fs sp = Except.ok [] := by
      unfold Config.image_groups
      rw [h]
    refine ⟨hig, fun points => ?_⟩
    unfold Config.colorize
    rw [hig]
    exact colorizePoints_no_groups c sp points
  · unfold Config.image_groups
    rw [h]

/-- Claim C10 witness: the missing-directory filesystem yields no image groups
and the one-point stream takes the no-thermal path, while the broken
filesystem panics with the io error. -/
theorem C10_missing_image_dir_witness :
    (Config.new testArgs).image_groups testFsMissing testScanPosTwoScans = Except.ok [] ∧
    (Config.new testArgs).colorize testFsMissing testScanPosTwoScans [⟨0, 0, 0, 0⟩] =
      Except.ok (if (Config.new testArgs).keep_without_thermal then
        [(⟨0, 0, 0, 0⟩ : RxpPoint)].map fun p =>
          (Config.new testArgs).makeLasPoint testScanPosTwoScans p none
      else []) ∧
    (Config.new testArgs).image_groups testFsBroken testScanPosTwoScans =
      Except.error ("io error: " ++ "permission denied") :=
  ⟨((C10_missing_image_dir (Config.new testArgs) testFsMissing testScanPosTwoScans).1 rfl).1,
   ((C10_missing_image_dir (Config.new testArgs) testFsMissing testScanPosTwoScans).1 rfl).2
     [⟨0, 0, 0, 0⟩],
   (C10_missing_image_dir (Config.new testArgs) testFsBroken testScanPosTwoScans).2
     "permission denied" rfl⟩

end Tce
